import Mathlib

/-!
# Verification of `SWCharEst` (Saxton & Rawls 2006 soil-water characteristic estimator)

Shallow embedding of `src/SWCharEst.py`.  The Python floats are modelled by
exact rationals (`ℚ`) for every polynomial/clamping step; the transcendental
tail of the computation (`math.log`, `math.pow` with a real exponent) is
modelled over `ℝ`.  Python's exceptional control flow (`ValueError` from
`math.log`/`math.pow`, `ZeroDivisionError` from `/`) is modelled by an
explicit outcome type `PyResult`, and the `DEBUG` print of intermediate
values is modelled as an emitted trace (second component of `Get`'s result),
so that "the diagnostic mode does not alter the returned result" is a real
statement about the first component.
-/

set_option maxRecDepth 10000

namespace SWCharEst

/-- Exceptions the Python code can raise: `math.log`/`math.pow` raise
`ValueError` on domain errors, `/` raises `ZeroDivisionError`. -/
inductive PyExn where
  | valueError
  | zeroDivisionError
deriving DecidableEq

/-- The possible outcomes of a call to `SWCharEst.Get`: return `None`
(invalid input), raise an exception, or return the results dict, which is
modelled as an insertion-ordered association list. -/
inductive PyResult where
  | retNone
  | exn (e : PyExn)
  | ret (l : List (String × ℝ))

/-- Round-half-to-even to the nearest integer (the tie-breaking rule of
Python's built-in `round`). -/
def rhe (q : ℚ) : ℤ :=
  if q - ⌊q⌋ < 1/2 then ⌊q⌋
  else if 1/2 < q - ⌊q⌋ then ⌊q⌋ + 1
  else if Even ⌊q⌋ then ⌊q⌋ else ⌊q⌋ + 1

/-- Python's `round(x, 6)` on an exact rational. -/
def round6 (q : ℚ) : ℚ := (rhe (q * 1000000) : ℚ) / 1000000

open Classical in
/-- Round-half-to-even on `ℝ` (real-number idealization of Python's
`round` tie rule, used for the transcendental value `Ks`). -/
noncomputable def rheR (x : ℝ) : ℤ :=
  if x - ⌊x⌋ < 1/2 then ⌊x⌋
  else if 1/2 < x - ⌊x⌋ then ⌊x⌋ + 1
  else if Even ⌊x⌋ then ⌊x⌋ else ⌊x⌋ + 1

/-- Python's `round(x, 6)` on a real. -/
noncomputable def round6R (x : ℝ) : ℝ := (rheR (x * 1000000) : ℝ) / 1000000

/-- `SWCharEst.__CheckArgs`: the four range/sum checks.  The Python code
sets `ok = False` on each failed check; the net result is `False` iff at
least one check fails. -/
def CheckArgs (sand clay ompc : ℚ) : Bool :=
  if sand < 0 ∨ sand > 1 then false
  else if clay < 0 ∨ clay > 1 then false
  else if ompc < 0 ∨ ompc > 70 then false
  else if sand + clay > 1 then false
  else true

/-- `theta1500t`: raw −1500 kPa regression (`SWCharEst.py` line 68). -/
def theta1500t (sand clay om : ℚ) : ℚ :=
  -0.024 * sand + 0.487 * clay + 0.006 * om
    + 0.005 * sand * om
    - 0.013 * clay * om
    + 0.068 * sand * clay
    + 0.031

/-- `theta1500`: wilting-point estimate, floored at `0.01` (line 74). -/
def theta1500 (sand clay om : ℚ) : ℚ :=
  max 0.01 (theta1500t sand clay om + 0.14 * theta1500t sand clay om - 0.02)

/-- `theta33t`: raw −33 kPa regression (line 77). -/
def theta33t (sand clay om : ℚ) : ℚ :=
  -0.251 * sand + 0.195 * clay + 0.011 * om
    + 0.006 * sand * om
    - 0.027 * clay * om
    + 0.452 * sand * clay
    + 0.299

/-- `theta33`: field-capacity estimate, capped at `0.80` (line 83). -/
def theta33 (sand clay om : ℚ) : ℚ :=
  min 0.80
    (theta33t sand clay om + 1.283 * theta33t sand clay om * theta33t sand clay om
      - 0.374 * theta33t sand clay om - 0.015)

/-- The reassigned `theta1500` after the second constraint
`theta1500 = min(theta1500, 0.80*theta33)` (line 87); the Python code
overwrites the variable, here it gets its own name. -/
def theta1500c (sand clay om : ℚ) : ℚ :=
  min (theta1500 sand clay om) (0.80 * theta33 sand clay om)

/-- `thetaS33t`: raw 0–33 kPa saturation regression (line 90). -/
def thetaS33t (sand clay om : ℚ) : ℚ :=
  0.278 * sand + 0.034 * clay + 0.022 * om
    - 0.018 * sand * om
    - 0.027 * clay * om
    - 0.584 * sand * clay
    + 0.078

/-- `thetaS33` (line 96). -/
def thetaS33 (sand clay om : ℚ) : ℚ :=
  thetaS33t sand clay om + 0.636 * thetaS33t sand clay om - 0.107

/-- `thetaS`: saturated water content (line 98). -/
def thetaS (sand clay om : ℚ) : ℚ :=
  theta33 sand clay om + thetaS33 sand clay om - 0.097 * sand + 0.043

/-- `B = 3.816713 / (math.log(theta33) - math.log(theta1500))` (line 100),
with the reassigned (re-constrained) `theta1500`. -/
noncomputable def B (sand clay om : ℚ) : ℝ :=
  3.816713 / (Real.log (theta33 sand clay om : ℝ) - Real.log (theta1500c sand clay om : ℝ))

/-- `lamda = 1.0 / B` (line 102). -/
noncomputable def lamda (sand clay om : ℚ) : ℝ := 1.0 / B sand clay om

/-- `Ks = 1930.0 * math.pow(thetaS - theta33, 3.0 - lamda) / 36000.0` (line 104). -/
noncomputable def Ks (sand clay om : ℚ) : ℝ :=
  1930.0 * ((thetaS sand clay om - theta33 sand clay om : ℚ) : ℝ) ^ (3.0 - lamda sand clay om)
    / 36000.0

/-- The conditions under which Python's `math.pow(b, e)` raises
`ValueError`: a negative base with a non-integral exponent, or a zero base
with a negative exponent. -/
def powRaises (b : ℚ) (e : ℝ) : Prop :=
  (b < 0 ∧ ∀ n : ℤ, e ≠ (n : ℝ)) ∨ (b = 0 ∧ e < 0)

/-- The `results` dict built at lines 120–124, in insertion order. -/
noncomputable def resultsList (sand clay om : ℚ) : List (String × ℝ) :=
  [("WP", round6R (theta1500c sand clay om : ℝ)),
   ("FC", round6R (theta33 sand clay om : ℝ)),
   ("thetaS", round6R (thetaS sand clay om : ℝ)),
   ("Ks", round6R (Ks sand clay om))]

/-- The intermediate values printed by the `DEBUG` branch (lines 106–118),
in print order; `theta1500` there is the reassigned value. -/
noncomputable def traceList (sand clay om : ℚ) : List ℝ :=
  [(sand : ℝ), (clay : ℝ), (om : ℝ),
   (theta1500t sand clay om : ℝ), (theta1500c sand clay om : ℝ),
   (theta33t sand clay om : ℝ), (theta33 sand clay om : ℝ),
   (thetaS33t sand clay om : ℝ), (thetaS33 sand clay om : ℝ),
   (thetaS sand clay om : ℝ),
   B sand clay om, lamda sand clay om, Ks sand clay om]

open Classical in
/-- `SWCharEst.Get`.  First component: the outcome (return `None`, raise,
or return the results dict).  Second component: the values printed when
`DEBUG` is set (empty when an exception aborts the call before the print).
The guards mirror, in evaluation order, the places where line 100
(`math.log`, `/`) and line 104 (`math.pow`) raise. -/
noncomputable def Get (sand clay ompc : ℚ) (DEBUG : Bool) : PyResult × List ℝ :=
  let om := min 70 ompc
  if CheckArgs sand clay om = false then (PyResult.retNone, [])
  else if theta33 sand clay om ≤ 0 ∨ theta1500c sand clay om ≤ 0 then
    (PyResult.exn PyExn.valueError, [])
  else if Real.log (theta33 sand clay om : ℝ) = Real.log (theta1500c sand clay om : ℝ) then
    (PyResult.exn PyExn.zeroDivisionError, [])
  else if powRaises (thetaS sand clay om - theta33 sand clay om) (3.0 - lamda sand clay om) then
    (PyResult.exn PyExn.valueError, [])
  else (PyResult.ret (resultsList sand clay om),
        if DEBUG then traceList sand clay om else [])

end SWCharEst

/-! ## Basic facts about the embedding -/

namespace SWCharEst

open Classical in
/-- Zeta-reduced unfolding of `Get`. -/
lemma Get_eq (s c o : ℚ) (d : Bool) :
    Get s c o d =
      (if CheckArgs s c (min 70 o) = false then (PyResult.retNone, [])
       else if theta33 s c (min 70 o) ≤ 0 ∨ theta1500c s c (min 70 o) ≤ 0 then
         (PyResult.exn PyExn.valueError, [])
       else if Real.log (theta33 s c (min 70 o) : ℝ) = Real.log (theta1500c s c (min 70 o) : ℝ) then
         (PyResult.exn PyExn.zeroDivisionError, [])
       else if powRaises (thetaS s c (min 70 o) - theta33 s c (min 70 o))
           (3.0 - lamda s c (min 70 o)) then
         (PyResult.exn PyExn.valueError, [])
       else (PyResult.ret (resultsList s c (min 70 o)),
             if d then traceList s c (min 70 o) else [])) := rfl

/-- `__CheckArgs` returns `False` exactly when one of the four checks fails. -/
lemma CheckArgs_eq_false_iff (s c o : ℚ) :
    CheckArgs s c o = false ↔
      (s < 0 ∨ 1 < s ∨ c < 0 ∨ 1 < c ∨ o < 0 ∨ 70 < o ∨ 1 < s + c) := by
  unfold CheckArgs
  split_ifs with h1 h2 h3 h4 <;> simp <;> first | tauto | (push_neg at *; tauto)

lemma log_ne_log {a b : ℚ} (ha : 0 < a) (hb : 0 < b) (h : a ≠ b) :
    Real.log (a : ℝ) ≠ Real.log (b : ℝ) := by
  rcases h.lt_or_lt with hl | hl
  · exact ne_of_lt (Real.log_lt_log (by exact_mod_cast ha) (by exact_mod_cast hl))
  · exact ne_of_gt (Real.log_lt_log (by exact_mod_cast hb) (by exact_mod_cast hl))

lemma not_powRaises_of_pos {b : ℚ} (hb : 0 < b) (e : ℝ) : ¬ powRaises b e := by
  rintro (⟨hneg, -⟩ | ⟨hz, -⟩)
  · linarith
  · exact absurd hz hb.ne'

/-- When all numeric-domain guards hold, `Get` returns the results dict
(and the debug trace when requested). -/
lemma Get_ret (s c o : ℚ) (d : Bool)
    (h1 : CheckArgs s c (min 70 o) = true)
    (h2 : 0 < theta33 s c (min 70 o))
    (h3 : 0 < theta1500c s c (min 70 o))
    (h4 : theta33 s c (min 70 o) ≠ theta1500c s c (min 70 o))
    (h5 : 0 < thetaS s c (min 70 o) - theta33 s c (min 70 o)) :
    Get s c o d = (PyResult.ret (resultsList s c (min 70 o)),
      if d then traceList s c (min 70 o) else []) := by
  rw [Get_eq]
  rw [if_neg (by simp [h1]), if_neg (by push_neg; exact ⟨h2, h3⟩),
    if_neg (log_ne_log h2 h3 h4), if_neg (not_powRaises_of_pos h5 _)]

/-- Conversely, any returned dict is exactly `resultsList` at the clamped
organic-matter value. -/
lemma ret_imp (s c o : ℚ) (d : Bool) (l : List (String × ℝ))
    (h : (Get s c o d).1 = PyResult.ret l) : l = resultsList s c (min 70 o) := by
  rw [Get_eq] at h
  split_ifs at h <;> simp_all

/-! ## Evaluating the rounding function -/

lemma round6_eq_down (q : ℚ) (n : ℤ) (h1 : (n : ℚ) ≤ q * 1000000)
    (h3 : q * 1000000 - n < 1/2) : round6 q = (n : ℚ) / 1000000 := by
  have hf : ⌊q * 1000000⌋ = n := Int.floor_eq_iff.mpr ⟨h1, by linarith⟩
  unfold round6 rhe
  rw [hf, if_pos h3]

lemma round6_eq_up (q : ℚ) (n : ℤ) (h1 : 1/2 < q * 1000000 - n)
    (h2 : q * 1000000 < n + 1) : round6 q = ((n + 1 : ℤ) : ℚ) / 1000000 := by
  have hf : ⌊q * 1000000⌋ = n := Int.floor_eq_iff.mpr ⟨by linarith, by exact_mod_cast h2⟩
  unfold round6 rhe
  rw [hf, if_neg (by linarith), if_pos h1]

/-! ## Monotonicity of the rounding function -/

lemma rhe_le_rhe {a b : ℚ} (h : a ≤ b) : rhe a ≤ rhe b := by
  have hf : ⌊a⌋ ≤ ⌊b⌋ := Int.floor_mono h
  rcases eq_or_lt_of_le hf with he | hl
  · have hfa : (⌊a⌋ : ℚ) ≤ a := Int.floor_le a
    have hab : a - ⌊a⌋ ≤ b - ⌊a⌋ := by linarith
    unfold rhe
    rw [← he]
    split_ifs <;> first | omega | linarith
  · have h1 : rhe a ≤ ⌊a⌋ + 1 := by unfold rhe; split_ifs <;> omega
    have h2 : ⌊b⌋ ≤ rhe b := by unfold rhe; split_ifs <;> omega
    omega

lemma round6_mono {a b : ℚ} (h : a ≤ b) : round6 a ≤ round6 b := by
  unfold round6
  have h1 := rhe_le_rhe (show a * 1000000 ≤ b * 1000000 by linarith)
  have h2 : ((rhe (a * 1000000) : ℤ) : ℚ) ≤ ((rhe (b * 1000000) : ℤ) : ℚ) := by
    exact_mod_cast h1
  linarith

/-! ## The real rounding function agrees with the rational one, and is
determined on any open half-integer-free interval -/

lemma rheR_cast (q : ℚ) : rheR ((q : ℚ) : ℝ) = rhe q := by
  unfold rheR rhe
  rw [Rat.floor_cast]
  have key : ((q : ℝ) - ((⌊q⌋ : ℤ) : ℝ)) = ((q - ⌊q⌋ : ℚ) : ℝ) := by push_cast; ring
  have h12 : ((1 : ℝ)/2) = (((1 : ℚ)/2 : ℚ) : ℝ) := by norm_num
  rw [key, h12]
  by_cases h1 : q - ⌊q⌋ < 1/2
  · rw [if_pos (Rat.cast_lt.mpr h1), if_pos h1]
  · by_cases h2 : 1/2 < q - ⌊q⌋
    · rw [if_neg (fun hc => h1 (Rat.cast_lt.mp hc)), if_pos (Rat.cast_lt.mpr h2),
        if_neg h1, if_pos h2]
    · rw [if_neg (fun hc => h1 (Rat.cast_lt.mp hc)), if_neg (fun hc => h2 (Rat.cast_lt.mp hc)),
        if_neg h1, if_neg h2]

lemma round6R_cast (q : ℚ) : round6R ((q : ℚ) : ℝ) = ((round6 q : ℚ) : ℝ) := by
  unfold round6R round6
  rw [show ((q : ℝ) * 1000000) = ((q * 1000000 : ℚ) : ℝ) by push_cast; ring, rheR_cast]
  push_cast
  ring

lemma rheR_eq_of_between (t : ℝ) (k : ℤ) (h1 : (k : ℝ) - 1/2 < t) (h2 : t < (k : ℝ) + 1/2) :
    rheR t = k := by
  unfold rheR
  rcases le_or_lt (k : ℝ) t with hk | hk
  · have hf : ⌊t⌋ = k := Int.floor_eq_iff.mpr ⟨hk, by linarith⟩
    rw [hf, if_pos (by linarith)]
  · have hf : ⌊t⌋ = k - 1 := Int.floor_eq_iff.mpr ⟨by push_cast; linarith, by push_cast; linarith⟩
    rw [hf, if_neg (by push_cast; linarith), if_pos (by push_cast; linarith)]
    omega

end SWCharEst

/-! ## Reference model written from the spec's words (§4.1 steps 1–11)

A second, independent rendering of the computation, following the
wording of the specification, to be compared with the embedding of the
code (`resultsList`/`Get`). -/

namespace SWCharEst

namespace Spec

/-- Spec §4.1 step 1. -/
def theta1500Raw (sand clay om : ℚ) : ℚ :=
  -0.024 * sand + 0.487 * clay + 0.006 * om + 0.005 * sand * om
    - 0.013 * clay * om + 0.068 * sand * clay + 0.031

/-- Spec §4.1 step 2: wilting-point estimate, floored at 0.01. -/
def theta1500 (sand clay om : ℚ) : ℚ :=
  max 0.01 (theta1500Raw sand clay om + 0.14 * theta1500Raw sand clay om - 0.02)

/-- Spec §4.1 step 3. -/
def theta33Raw (sand clay om : ℚ) : ℚ :=
  -0.251 * sand + 0.195 * clay + 0.011 * om + 0.006 * sand * om
    - 0.027 * clay * om + 0.452 * sand * clay + 0.299

/-- Spec §4.1 step 4: field-capacity estimate, capped at 0.80. -/
def theta33 (sand clay om : ℚ) : ℚ :=
  min 0.80 (theta33Raw sand clay om + 1.283 * theta33Raw sand clay om ^ 2
    - 0.374 * theta33Raw sand clay om - 0.015)

/-- Spec §4.1 step 5: re-constrained wilting point. -/
def theta1500Re (sand clay om : ℚ) : ℚ :=
  min (theta1500 sand clay om) (0.80 * theta33 sand clay om)

/-- Spec §4.1 step 6. -/
def thetaS33Raw (sand clay om : ℚ) : ℚ :=
  0.278 * sand + 0.034 * clay + 0.022 * om - 0.018 * sand * om
    - 0.027 * clay * om - 0.584 * sand * clay + 0.078

/-- Spec §4.1 step 7. -/
def thetaS33 (sand clay om : ℚ) : ℚ :=
  thetaS33Raw sand clay om + 0.636 * thetaS33Raw sand clay om - 0.107

/-- Spec §4.1 step 8: saturated water content. -/
def thetaS (sand clay om : ℚ) : ℚ :=
  theta33 sand clay om + thetaS33 sand clay om - 0.097 * sand + 0.043

/-- Spec §4.1 step 9: slope parameter, using the re-constrained wilting
point. -/
noncomputable def B (sand clay om : ℚ) : ℝ :=
  3.816713 / (Real.log (theta33 sand clay om : ℝ) - Real.log (theta1500Re sand clay om : ℝ))

/-- Spec §4.1 step 10. -/
noncomputable def lam (sand clay om : ℚ) : ℝ := 1 / B sand clay om

/-- Spec §4.1 step 11: saturated hydraulic conductivity. -/
noncomputable def Ks (sand clay om : ℚ) : ℝ :=
  1930 * ((thetaS sand clay om - theta33 sand clay om : ℚ) : ℝ) ^ ((3 : ℝ) - lam sand clay om)
    / 36000

/-- The spec's result assembly: clamp `om`, round the four quantities to
6 decimal places, return the labeled quadruple in the stated order. -/
noncomputable def estimate (sand clay ompc : ℚ) : List (String × ℝ) :=
  [("WP", round6R (theta1500Re sand clay (min 70 ompc) : ℝ)),
   ("FC", round6R (theta33 sand clay (min 70 ompc) : ℝ)),
   ("thetaS", round6R (thetaS sand clay (min 70 ompc) : ℝ)),
   ("Ks", round6R (Ks sand clay (min 70 ompc)))]

end Spec

/-! ### The code's quantities agree with the spec's reference chain -/

lemma theta1500_eq_spec (s c om : ℚ) : theta1500 s c om = Spec.theta1500 s c om := rfl

lemma theta33_eq_spec (s c om : ℚ) : theta33 s c om = Spec.theta33 s c om := by
  unfold theta33 theta33t Spec.theta33 Spec.theta33Raw
  congr 1
  ring

lemma theta1500c_eq_spec (s c om : ℚ) : theta1500c s c om = Spec.theta1500Re s c om := by
  unfold theta1500c Spec.theta1500Re
  rw [theta1500_eq_spec, theta33_eq_spec]

lemma thetaS_eq_spec (s c om : ℚ) : thetaS s c om = Spec.thetaS s c om := by
  unfold thetaS thetaS33 thetaS33t Spec.thetaS Spec.thetaS33 Spec.thetaS33Raw
  rw [theta33_eq_spec]

lemma B_eq_spec (s c om : ℚ) : B s c om = Spec.B s c om := by
  unfold B Spec.B
  rw [theta33_eq_spec, theta1500c_eq_spec]

lemma Ks_eq_spec (s c om : ℚ) : Ks s c om = Spec.Ks s c om := by
  unfold Ks Spec.Ks lamda Spec.lam
  rw [theta33_eq_spec, thetaS_eq_spec, B_eq_spec]
  norm_num


end SWCharEst

namespace SWCharEst

lemma resultsList_eq_spec (s c o : ℚ) :
    resultsList s c (min 70 o) = Spec.estimate s c o := by
  unfold resultsList Spec.estimate
  rw [theta1500c_eq_spec, theta33_eq_spec, thetaS_eq_spec, Ks_eq_spec]

/-! ## Evaluation at the boundary input `(0, 0, 0)` -/

lemma min70_0 : min (70 : ℚ) 0 = 0 := by norm_num

lemma theta33_000 : theta33 0 0 0 = 286875483/1000000000 := by
  norm_num [theta33, theta33t]

lemma theta1500c_000 : theta1500c 0 0 0 = 767/50000 := by
  norm_num [theta1500c, theta1500, theta1500t, theta33, theta33t]

lemma thetaS_000 : thetaS 0 0 0 = 350483483/1000000000 := by
  norm_num [thetaS, thetaS33, thetaS33t, theta33, theta33t]

lemma Get_ret_000 : (Get 0 0 0 false).1 = PyResult.ret (resultsList 0 0 0) := by
  have h := Get_ret 0 0 0 false
    (by rw [min70_0]; norm_num [CheckArgs])
    (by rw [min70_0, theta33_000]; norm_num)
    (by rw [min70_0, theta1500c_000]; norm_num)
    (by rw [min70_0, theta33_000, theta1500c_000]; norm_num)
    (by rw [min70_0, thetaS_000, theta33_000]; norm_num)
  rw [min70_0] at h
  rw [h]

end SWCharEst

/-! ## Claims -/

namespace SWCharEst

/-- C1: `Get` returns the invalid-input signal (`None`) iff, after clamping
`om = min(70, ompc)`, at least one of the four checks fails
(`sand < 0 ∨ sand > 1`, `clay < 0 ∨ clay > 1`, `om < 0 ∨ om > 70`,
`sand + clay > 1`); in particular `Get(0.7, 0.5, ompc)` returns `None` for
every `ompc`, and on invalid input only `None` is returned. -/
theorem claim_C1 :
    (∀ (s c o : ℚ) (d : Bool),
        (Get s c o d).1 = PyResult.retNone ↔
          (s < 0 ∨ 1 < s ∨ c < 0 ∨ 1 < c ∨
           min 70 o < 0 ∨ 70 < min 70 o ∨ 1 < s + c)) ∧
    (∀ (o : ℚ) (d : Bool), (Get 0.7 0.5 o d).1 = PyResult.retNone) := by
  constructor
  · intro s c o d
    rw [Get_eq, ← CheckArgs_eq_false_iff s c (min 70 o)]
    split_ifs with h1 h2 h3 h4 <;> simp [h1]
  · intro o d
    rw [Get_eq, if_pos ((CheckArgs_eq_false_iff _ _ _).mpr (by norm_num))]

/-- C2: any result dict returned by `Get` equals the reference regression
chain of spec §4.1 steps 1–11 (with `om = min(70, ompc)` and each of
`theta1500`, `theta33`, `thetaS`, `Ks` rounded to 6 decimal places). -/
theorem claim_C2 (s c o : ℚ) (d : Bool) (l : List (String × ℝ))
    (h : (Get s c o d).1 = PyResult.ret l) : l = Spec.estimate s c o := by
  rw [ret_imp s c o d l h, resultsList_eq_spec]

/-- Witness for C2 at the concrete input `(0, 0, 0)`. -/
theorem claim_C2_witness :
    (Get 0 0 0 false).1 = PyResult.ret (resultsList 0 0 0) ∧
    resultsList 0 0 0 = Spec.estimate 0 0 0 :=
  ⟨Get_ret_000, claim_C2 0 0 0 false _ Get_ret_000⟩

/-- C5: for organic matter above 70, the call is exactly equivalent to the
call at 70 — clamping happens before validation and computation. -/
theorem claim_C5 (s c o : ℚ) (d : Bool) (h : 70 < o) : Get s c o d = Get s c 70 d := by
  have h1 : min (70 : ℚ) o = 70 := min_eq_left h.le
  have h2 : min (70 : ℚ) 70 = 70 := min_self 70
  rw [Get_eq, Get_eq, h1, h2]

/-- Witness for C5 at `ompc = 71`. -/
theorem claim_C5_witness : (70 : ℚ) < 71 ∧ Get 0 0 71 false = Get 0 0 70 false :=
  ⟨by norm_num, claim_C5 0 0 71 false (by norm_num)⟩

/-- C7: `Get(0, 0, 0)` hits no numeric-domain error: validation passes,
both logarithm arguments are strictly positive, `theta33 ≠ theta1500` so
the denominator of `B` is nonzero, `thetaS - theta33 ≥ 0`, and a
well-defined four-field result is returned. -/
theorem claim_C7 :
    CheckArgs 0 0 (min 70 0) = true ∧
    0 < theta33 0 0 0 ∧ 0 < theta1500c 0 0 0 ∧
    theta33 0 0 0 ≠ theta1500c 0 0 0 ∧
    Real.log (theta33 0 0 0 : ℝ) - Real.log (theta1500c 0 0 0 : ℝ) ≠ 0 ∧
    0 ≤ thetaS 0 0 0 - theta33 0 0 0 ∧
    (Get 0 0 0 false).1 = PyResult.ret (resultsList 0 0 0) := by
  have h2 : 0 < theta33 0 0 0 := by rw [theta33_000]; norm_num
  have h3 : 0 < theta1500c 0 0 0 := by rw [theta1500c_000]; norm_num
  have h4 : theta33 0 0 0 ≠ theta1500c 0 0 0 := by
    rw [theta33_000, theta1500c_000]; norm_num
  refine ⟨by rw [min70_0]; norm_num [CheckArgs], h2, h3, h4, ?_, ?_, Get_ret_000⟩
  · exact sub_ne_zero.mpr (log_ne_log h2 h3 h4)
  · rw [thetaS_000, theta33_000]; norm_num

/-- C8: the `DEBUG` flag never alters the returned outcome of `Get`
(it only adds the emitted trace of intermediate values). -/
theorem claim_C8 (s c o : ℚ) (d : Bool) : (Get s c o d).1 = (Get s c o false).1 := by
  rw [Get_eq, Get_eq]
  split_ifs <;> rfl

/-- C9: every returned dict has exactly the keys `WP`, `FC`, `thetaS`, `Ks`
in that insertion order, and every value is a multiple of `10⁻⁶`
(a number rounded to 6 decimal places). -/
theorem claim_C9 (s c o : ℚ) (d : Bool) (l : List (String × ℝ))
    (h : (Get s c o d).1 = PyResult.ret l) :
    l.map Prod.fst = ["WP", "FC", "thetaS", "Ks"] ∧
    ∀ v ∈ l.map Prod.snd, ∃ z : ℤ, v = (z : ℝ) / 1000000 := by
  rw [ret_imp s c o d l h]
  refine ⟨rfl, ?_⟩
  intro v hv
  unfold resultsList round6R at hv
  simp only [List.map_cons, List.map_nil, List.mem_cons, List.not_mem_nil, or_false] at hv
  rcases hv with h | h | h | h <;> exact ⟨_, h⟩

/-- Witness for C9 at the concrete input `(0, 0, 0)`. -/
theorem claim_C9_witness :
    (Get 0 0 0 false).1 = PyResult.ret (resultsList 0 0 0) ∧
    (resultsList 0 0 0).map Prod.fst = ["WP", "FC", "thetaS", "Ks"] :=
  ⟨Get_ret_000, (claim_C9 0 0 0 false _ Get_ret_000).1⟩

/-- C10: whenever the computation of `B` is in-domain (`theta33` and the
re-constrained `theta1500` positive and distinct), `B ≠ 0`, so
`lamda = 1.0 / B` never divides by zero. -/
theorem claim_C10 (s c om : ℚ) (h2 : 0 < theta33 s c om) (h3 : 0 < theta1500c s c om)
    (h4 : theta33 s c om ≠ theta1500c s c om) :
    B s c om ≠ 0 ∧ lamda s c om = 1 / B s c om := by
  refine ⟨?_, by norm_num [lamda]⟩
  unfold B
  exact div_ne_zero (by norm_num) (sub_ne_zero.mpr (log_ne_log h2 h3 h4))

/-- Witness for C10 at the concrete input `(0, 0, 0)`. -/
theorem claim_C10_witness :
    0 < theta33 0 0 0 ∧ 0 < theta1500c 0 0 0 ∧
    theta33 0 0 0 ≠ theta1500c 0 0 0 ∧ B 0 0 0 ≠ 0 := by
  have h2 : 0 < theta33 0 0 0 := by rw [theta33_000]; norm_num
  have h3 : 0 < theta1500c 0 0 0 := by rw [theta1500c_000]; norm_num
  have h4 : theta33 0 0 0 ≠ theta1500c 0 0 0 := by
    rw [theta33_000, theta1500c_000]; norm_num
  exact ⟨h2, h3, h4, (claim_C10 0 0 0 h2 h3 h4).1⟩

end SWCharEst

/-! ## C3 and C4: ordering/bound invariants on the returned values -/

namespace SWCharEst

lemma lookup_WP (s c om : ℚ) :
    (resultsList s c om).lookup "WP" = some (round6R (theta1500c s c om : ℝ)) := by
  simp [resultsList, List.lookup]

lemma lookup_FC (s c om : ℚ) :
    (resultsList s c om).lookup "FC" = some (round6R (theta33 s c om : ℝ)) := by
  simp [resultsList, List.lookup]

lemma round6_08 : round6 (0.80 : ℚ) = 0.80 := by
  rw [round6_eq_down 0.80 800000 (by norm_num) (by norm_num)]
  norm_num

lemma round6_001 : round6 (0.01 : ℚ) = 0.01 := by
  rw [round6_eq_down 0.01 10000 (by norm_num) (by norm_num)]
  norm_num

/-- C3 (amended): before rounding, the re-constrained wilting point never
exceeds 80% of field capacity, the re-constrained value (not the step-2
value) is the one `B` divides by, and the returned `WP` entry is exactly
the rounding of the re-constrained value.  (The claim's inequality on the
returned, independently rounded `WP`/`FC` values fails; see the
counterexample.) -/
theorem claim_C3_amended (s c om : ℚ) :
    theta1500c s c om ≤ 0.80 * theta33 s c om ∧
    B s c om =
      3.816713 / (Real.log (theta33 s c om : ℝ) - Real.log (theta1500c s c om : ℝ)) ∧
    (resultsList s c om).lookup "WP" = some (round6R (theta1500c s c om : ℝ)) := by
  refine ⟨?_, rfl, lookup_WP s c om⟩
  unfold theta1500c
  exact min_le_right _ _

lemma min70_c3 : min (70 : ℚ) (52001/1000) = 52001/1000 := by norm_num

lemma theta33_c3 : theta33 0 (7/10) (52001/1000) = 123949944649203/100000000000000000 := by
  norm_num [theta33, theta33t]

lemma theta1500c_c3 :
    theta1500c 0 (7/10) (52001/1000) = 123949944649203/125000000000000000 := by
  norm_num [theta1500c, theta1500, theta1500t, theta33, theta33t]

lemma thetaS_c3 : thetaS 0 (7/10) (52001/1000) = 36751257104649203/100000000000000000 := by
  norm_num [thetaS, thetaS33, thetaS33t, theta33, theta33t]

lemma Get_ret_c3 :
    (Get 0 (7/10) (52001/1000) false).1 =
      PyResult.ret (resultsList 0 (7/10) (52001/1000)) := by
  have h := Get_ret 0 (7/10) (52001/1000) false
    (by rw [min70_c3]; norm_num [CheckArgs])
    (by rw [min70_c3, theta33_c3]; norm_num)
    (by rw [min70_c3, theta1500c_c3]; norm_num)
    (by rw [min70_c3, theta33_c3, theta1500c_c3]; norm_num)
    (by rw [min70_c3, thetaS_c3, theta33_c3]; norm_num)
  rw [min70_c3] at h
  rw [h]

/-- C3 counterexample: at the valid input `sand = 0`, `clay = 0.7`,
`om = 52.001`, the returned dict has `WP = 0.000992` and `FC = 0.001239`,
and `WP > 0.8 · FC`: rounding `WP` and `FC` independently to 6 decimals
breaks the ordering invariant on the returned values. -/
theorem claim_C3_counterexample :
    (Get 0 (7/10) (52001/1000) false).1 =
      PyResult.ret (resultsList 0 (7/10) (52001/1000)) ∧
    (resultsList 0 (7/10) (52001/1000)).lookup "WP" = some ((31/31250 : ℚ) : ℝ) ∧
    (resultsList 0 (7/10) (52001/1000)).lookup "FC" = some ((1239/1000000 : ℚ) : ℝ) ∧
    (0.8 : ℝ) * ((1239/1000000 : ℚ) : ℝ) < ((31/31250 : ℚ) : ℝ) := by
  have hwp : round6 (theta1500c 0 (7/10) (52001/1000)) = 31/31250 := by
    rw [theta1500c_c3,
      round6_eq_up (123949944649203/125000000000000000) 991 (by norm_num) (by norm_num)]
    norm_num
  have hfc : round6 (theta33 0 (7/10) (52001/1000)) = 1239/1000000 := by
    rw [theta33_c3,
      round6_eq_down (123949944649203/100000000000000000) 1239 (by norm_num) (by norm_num)]
    norm_num
  refine ⟨Get_ret_c3, ?_, ?_, by norm_num⟩
  · rw [lookup_WP, round6R_cast, hwp]
  · rw [lookup_FC, round6R_cast, hfc]

/-- C4 (amended): the returned `FC` never exceeds `0.80`, and the step-2
`theta1500` is always at least `0.01`; but the returned `WP` is the
rounding of the re-constrained `min(theta1500, 0.8·theta33)`, which is
only guaranteed to be at least `0.01` when `theta33 ≥ 0.0125`.  (The
claim's unconditional `WP ≥ 0.01` fails; see the counterexample.) -/
theorem claim_C4_amended (s c om : ℚ) :
    round6 (theta33 s c om) ≤ 0.80 ∧
    0.01 ≤ theta1500 s c om ∧
    (1/80 ≤ theta33 s c om → 0.01 ≤ round6 (theta1500c s c om)) ∧
    (resultsList s c om).lookup "FC" = some ((round6 (theta33 s c om) : ℚ) : ℝ) ∧
    (resultsList s c om).lookup "WP" = some ((round6 (theta1500c s c om) : ℚ) : ℝ) := by
  refine ⟨?_, ?_, ?_, ?_, ?_⟩
  · calc round6 (theta33 s c om) ≤ round6 0.80 :=
          round6_mono (by unfold theta33; exact min_le_left _ _)
      _ = 0.80 := round6_08
  · unfold theta1500
    exact le_max_left _ _
  · intro h
    have hmin : 0.01 ≤ theta1500c s c om := by
      unfold theta1500c
      apply le_min
      · unfold theta1500
        exact le_max_left _ _
      · linarith
    calc (0.01 : ℚ) = round6 0.01 := round6_001.symm
      _ ≤ round6 (theta1500c s c om) := round6_mono hmin
  · rw [lookup_FC, round6R_cast]
  · rw [lookup_WP, round6R_cast]

/-- Witness for the amended C4 at the concrete input `(0, 0, 0)`. -/
theorem claim_C4_amended_witness :
    1/80 ≤ theta33 0 0 0 ∧ (0.01 : ℚ) ≤ round6 (theta1500c 0 0 0) := by
  have h : (1 : ℚ)/80 ≤ theta33 0 0 0 := by rw [theta33_000]; norm_num
  exact ⟨h, (claim_C4_amended 0 0 0).2.2.1 h⟩

lemma min70_52 : min (70 : ℚ) 52 = 52 := by norm_num

lemma theta33_c4 : theta33 0 (7/10) 52 = 124494547/100000000000 := by
  norm_num [theta33, theta33t]

lemma theta1500c_c4 : theta1500c 0 (7/10) 52 = 124494547/125000000000 := by
  norm_num [theta1500c, theta1500, theta1500t, theta33, theta33t]

lemma thetaS_c4 : thetaS 0 (7/10) 52 = 36751294547/100000000000 := by
  norm_num [thetaS, thetaS33, thetaS33t, theta33, theta33t]

lemma Get_ret_c4 :
    (Get 0 (7/10) 52 false).1 = PyResult.ret (resultsList 0 (7/10) 52) := by
  have h := Get_ret 0 (7/10) 52 false
    (by rw [min70_52]; norm_num [CheckArgs])
    (by rw [min70_52, theta33_c4]; norm_num)
    (by rw [min70_52, theta1500c_c4]; norm_num)
    (by rw [min70_52, theta33_c4, theta1500c_c4]; norm_num)
    (by rw [min70_52, thetaS_c4, theta33_c4]; norm_num)
  rw [min70_52] at h
  rw [h]

/-- C4 counterexample: at the valid input `sand = 0`, `clay = 0.7`,
`om = 52`, `Get` returns a result whose `WP` is `0.000996 < 0.01`:
the step-5 re-constraint `min(theta1500, 0.8·theta33)` can push the
returned wilting point below the `0.01` floor when `theta33 < 0.0125`. -/
theorem claim_C4_counterexample :
    (Get 0 (7/10) 52 false).1 = PyResult.ret (resultsList 0 (7/10) 52) ∧
    (resultsList 0 (7/10) 52).lookup "WP" = some ((249/250000 : ℚ) : ℝ) ∧
    ((249/250000 : ℚ) : ℝ) < 0.01 := by
  have hwp : round6 (theta1500c 0 (7/10) 52) = 249/250000 := by
    rw [theta1500c_c4,
      round6_eq_up (124494547/125000000000) 995 (by norm_num) (by norm_num)]
    norm_num
  refine ⟨Get_ret_c4, ?_, by norm_num⟩
  rw [lookup_WP, round6R_cast, hwp]

end SWCharEst

namespace SWCharEst

lemma log_le_of_sq {x u : ℝ} (hx : 0 < x) (hu : 0 < u) (h : x ≤ u * u) :
    Real.log x ≤ 2 * Real.log u := by
  have h1 : Real.log x ≤ Real.log (u * u) := Real.log_le_log hx h
  rwa [Real.log_mul hu.ne' hu.ne', ← two_mul] at h1

lemma sq_log_le {x l : ℝ} (hl : 0 < l) (h : l * l ≤ x) :
    2 * Real.log l ≤ Real.log x := by
  have h1 : Real.log (l * l) ≤ Real.log x := Real.log_le_log (mul_pos hl hl) h
  rwa [Real.log_mul hl.ne' hl.ne', ← two_mul] at h1

lemma lin_le_log {l : ℝ} (hl : 0 < l) : 1 - l⁻¹ ≤ Real.log l := by
  have h := Real.log_le_sub_one_of_pos (inv_pos.mpr hl)
  rw [Real.log_inv] at h
  linarith

lemma theta33_c6 : theta33 0.85 0.04 2.08 = 611534530383883/6250000000000000 := by
  norm_num [theta33, theta33t]

lemma theta1500c_c6 : theta1500c 0.85 0.04 2.08 = 624979/15625000 := by
  norm_num [theta1500c, theta1500, theta1500t, theta33, theta33t]

lemma thetaS_c6 : thetaS 0.85 0.04 2.08 = 2840344090383883/6250000000000000 := by
  norm_num [thetaS, thetaS33, thetaS33t, theta33, theta33t]

lemma lamda_c6 :
    lamda 0.85 0.04 2.08 = Real.log (611534530383883/249991600000000 : ℝ) / 3.816713 := by
  unfold lamda B
  rw [theta33_c6, theta1500c_c6]
  rw [show Real.log ((611534530383883/6250000000000000 : ℚ) : ℝ)
        - Real.log ((624979/15625000 : ℚ) : ℝ)
      = Real.log (611534530383883/249991600000000 : ℝ) by
    rw [← Real.log_div (by norm_num) (by norm_num)]
    norm_num]
  rw [show (1.0 : ℝ) = 1 by norm_num, one_div_div]

lemma Ks_c6_eq :
    Ks 0.85 0.04 2.08 =
      1930 * Real.exp (Real.log (55720239/156250000 : ℝ)
        * (3 - Real.log (611534530383883/249991600000000 : ℝ) / 3.816713)) / 36000 := by
  have hbase : ((thetaS 0.85 0.04 2.08 - theta33 0.85 0.04 2.08 : ℚ) : ℝ)
      = (55720239/156250000 : ℝ) := by
    rw [thetaS_c6, theta33_c6]
    push_cast
    norm_num
  unfold Ks
  rw [hbase, lamda_c6, Real.rpow_def_of_pos (by norm_num)]
  norm_num

end SWCharEst

namespace SWCharEst

lemma log_rho_le : Real.log (611534530383883/249991600000000 : ℝ) ≤ (1031451762598230611/1152921504606846976 : ℝ) := by
  have h0 : Real.log (611534530383883/249991600000000 : ℝ) ≤ 2 * Real.log (968093709824259608771065833/618970019642690137449562112 : ℝ) :=
    log_le_of_sq (by norm_num) (by norm_num) (by norm_num)
  have h1 : Real.log (968093709824259608771065833/618970019642690137449562112 : ℝ) ≤ 2 * Real.log (1548187304670706484517854301/1237940039285380274899124224 : ℝ) :=
    log_le_of_sq (by norm_num) (by norm_num) (by norm_num)
  have h2 : Real.log (1548187304670706484517854301/1237940039285380274899124224 : ℝ) ≤ 2 * Real.log (1384399889036827894170139435/1237940039285380274899124224 : ℝ) :=
    log_le_of_sq (by norm_num) (by norm_num) (by norm_num)
  have h3 : Real.log (1384399889036827894170139435/1237940039285380274899124224 : ℝ) ≤ 2 * Real.log (1309123391060188343103745927/1237940039285380274899124224 : ℝ) :=
    log_le_of_sq (by norm_num) (by norm_num) (by norm_num)
  have h4 : Real.log (1309123391060188343103745927/1237940039285380274899124224 : ℝ) ≤ 2 * Real.log (1273034273756390190468462253/1237940039285380274899124224 : ℝ) :=
    log_le_of_sq (by norm_num) (by norm_num) (by norm_num)
  have h5 : Real.log (1273034273756390190468462253/1237940039285380274899124224 : ℝ) ≤ 2 * Real.log (1255364528280778379540733163/1237940039285380274899124224 : ℝ) :=
    log_le_of_sq (by norm_num) (by norm_num) (by norm_num)
  have h6 : Real.log (1255364528280778379540733163/1237940039285380274899124224 : ℝ) ≤ 2 * Real.log (1246621840598575292062947323/1237940039285380274899124224 : ℝ) :=
    log_le_of_sq (by norm_num) (by norm_num) (by norm_num)
  have h7 : Real.log (1246621840598575292062947323/1237940039285380274899124224 : ℝ) ≤ 2 * Real.log (310568338929273882362619079/309485009821345068724781056 : ℝ) :=
    log_le_of_sq (by norm_num) (by norm_num) (by norm_num)
  have h8 : Real.log (310568338929273882362619079/309485009821345068724781056 : ℝ) ≤ 2 * Real.log (1240104804756276405762998945/1237940039285380274899124224 : ℝ) :=
    log_le_of_sq (by norm_num) (by norm_num) (by norm_num)
  have h9 : Real.log (1240104804756276405762998945/1237940039285380274899124224 : ℝ) ≤ 2 * Real.log (309755487311965715050930635/309485009821345068724781056 : ℝ) :=
    log_le_of_sq (by norm_num) (by norm_num) (by norm_num)
  have h10 : Real.log (309755487311965715050930635/309485009821345068724781056 : ℝ) ≤ 2 * Real.log (309620219031250020114766255/309485009821345068724781056 : ℝ) :=
    log_le_of_sq (by norm_num) (by norm_num) (by norm_num)
  have h11 : Real.log (309620219031250020114766255/309485009821345068724781056 : ℝ) ≤ 2 * Real.log (1238210428176234825464295037/1237940039285380274899124224 : ℝ) :=
    log_le_of_sq (by norm_num) (by norm_num) (by norm_num)
  have hf : Real.log (1238210428176234825464295037/1237940039285380274899124224 : ℝ) ≤ (1238210428176234825464295037/1237940039285380274899124224 : ℝ) - 1 :=
    Real.log_le_sub_one_of_pos (by norm_num)
  have hn : (4096 : ℝ) * ((1238210428176234825464295037/1237940039285380274899124224 : ℝ) - 1) ≤ (1031451762598230611/1152921504606846976 : ℝ) := by norm_num
  linarith [h0, h1, h2, h3, h4, h5, h6, h7, h8, h9, h10, h11, hf, hn]

lemma le_log_rho : (515613261872032265/576460752303423488 : ℝ) ≤ Real.log (611534530383883/249991600000000 : ℝ) := by
  have h0 : 2 * Real.log (1936187419648519217542131665/1237940039285380274899124224 : ℝ) ≤ Real.log (611534530383883/249991600000000 : ℝ) :=
    sq_log_le (by norm_num) (by norm_num)
  have h1 : 2 * Real.log (387046826167676621129463575/309485009821345068724781056 : ℝ) ≤ Real.log (1936187419648519217542131665/1237940039285380274899124224 : ℝ) :=
    sq_log_le (by norm_num) (by norm_num)
  have h2 : 2 * Real.log (692199944518413947085069717/618970019642690137449562112 : ℝ) ≤ Real.log (387046826167676621129463575/309485009821345068724781056 : ℝ) :=
    sq_log_le (by norm_num) (by norm_num)
  have h3 : 2 * Real.log (654561695530094171551872963/618970019642690137449562112 : ℝ) ≤ Real.log (692199944518413947085069717/618970019642690137449562112 : ℝ) :=
    sq_log_le (by norm_num) (by norm_num)
  have h4 : 2 * Real.log (318258568439097547617115563/309485009821345068724781056 : ℝ) ≤ Real.log (654561695530094171551872963/618970019642690137449562112 : ℝ) :=
    sq_log_le (by norm_num) (by norm_num)
  have h5 : 2 * Real.log (627682264140389189770366581/618970019642690137449562112 : ℝ) ≤ Real.log (318258568439097547617115563/309485009821345068724781056 : ℝ) :=
    sq_log_le (by norm_num) (by norm_num)
  have h6 : 2 * Real.log (1246621840598575292062947321/1237940039285380274899124224 : ℝ) ≤ Real.log (627682264140389189770366581/618970019642690137449562112 : ℝ) :=
    sq_log_le (by norm_num) (by norm_num)
  have h7 : 2 * Real.log (621136677858547764725238157/618970019642690137449562112 : ℝ) ≤ Real.log (1246621840598575292062947321/1237940039285380274899124224 : ℝ) :=
    sq_log_le (by norm_num) (by norm_num)
  have h8 : 2 * Real.log (1240104804756276405762998943/1237940039285380274899124224 : ℝ) ≤ Real.log (621136677858547764725238157/618970019642690137449562112 : ℝ) :=
    sq_log_le (by norm_num) (by norm_num)
  have h9 : 2 * Real.log (619510974623931430101861269/618970019642690137449562112 : ℝ) ≤ Real.log (1240104804756276405762998943/1237940039285380274899124224 : ℝ) :=
    sq_log_le (by norm_num) (by norm_num)
  have h10 : 2 * Real.log (619240438062500040229532509/618970019642690137449562112 : ℝ) ≤ Real.log (619510974623931430101861269/618970019642690137449562112 : ℝ) :=
    sq_log_le (by norm_num) (by norm_num)
  have h11 : 2 * Real.log (1238210428176234825464295035/1237940039285380274899124224 : ℝ) ≤ Real.log (619240438062500040229532509/618970019642690137449562112 : ℝ) :=
    sq_log_le (by norm_num) (by norm_num)
  have hf : 1 - ((1238210428176234825464295035/1237940039285380274899124224 : ℝ))⁻¹ ≤ Real.log (1238210428176234825464295035/1237940039285380274899124224 : ℝ) :=
    lin_le_log (by norm_num)
  have hn : (515613261872032265/576460752303423488 : ℝ) ≤ (4096 : ℝ) * (1 - ((1238210428176234825464295035/1237940039285380274899124224 : ℝ))⁻¹) := by norm_num
  linarith [h0, h1, h2, h3, h4, h5, h6, h7, h8, h9, h10, h11, hf, hn]

lemma log_d_le : Real.log (55720239/156250000 : ℝ) ≤ (-(594391989958149383/576460752303423488) : ℝ) := by
  have h0 : Real.log (55720239/156250000 : ℝ) ≤ 2 * Real.log (739258083447372391642087129/1237940039285380274899124224 : ℝ) :=
    log_le_of_sq (by norm_num) (by norm_num) (by norm_num)
  have h1 : Real.log (739258083447372391642087129/1237940039285380274899124224 : ℝ) ≤ 2 * Real.log (478319239855787922086656751/618970019642690137449562112 : ℝ) :=
    log_le_of_sq (by norm_num) (by norm_num) (by norm_num)
  have h2 : Real.log (478319239855787922086656751/618970019642690137449562112 : ℝ) ≤ 2 * Real.log (1088237601425375607116885047/1237940039285380274899124224 : ℝ) :=
    log_le_of_sq (by norm_num) (by norm_num) (by norm_num)
  have h3 : Real.log (1088237601425375607116885047/1237940039285380274899124224 : ℝ) ≤ 2 * Real.log (580338887862160560666723703/618970019642690137449562112 : ℝ) :=
    log_le_of_sq (by norm_num) (by norm_num) (by norm_num)
  have h4 : Real.log (580338887862160560666723703/618970019642690137449562112 : ℝ) ≤ 2 * Real.log (1198686569240614243438506073/1237940039285380274899124224 : ℝ) :=
    log_le_of_sq (by norm_num) (by norm_num) (by norm_num)
  have h5 : Real.log (1198686569240614243438506073/1237940039285380274899124224 : ℝ) ≤ 2 * Real.log (1218155203008460535448668407/1237940039285380274899124224 : ℝ) :=
    log_le_of_sq (by norm_num) (by norm_num) (by norm_num)
  have h6 : Real.log (1218155203008460535448668407/1237940039285380274899124224 : ℝ) ≤ 2 * Real.log (307001944198646730989457311/309485009821345068724781056 : ℝ) :=
    log_le_of_sq (by norm_num) (by norm_num) (by norm_num)
  have h7 : Real.log (307001944198646730989457311/309485009821345068724781056 : ℝ) ≤ 2 * Real.log (1232963906790398884526801537/1237940039285380274899124224 : ℝ) :=
    log_le_of_sq (by norm_num) (by norm_num) (by norm_num)
  have h8 : Real.log (1232963906790398884526801537/1237940039285380274899124224 : ℝ) ≤ 2 * Real.log (617724733843797600489883137/618970019642690137449562112 : ℝ) :=
    log_le_of_sq (by norm_num) (by norm_num) (by norm_num)
  have h9 : Real.log (617724733843797600489883137/618970019642690137449562112 : ℝ) ≤ 2 * Real.log (1236694126518066613409860367/1237940039285380274899124224 : ℝ) :=
    log_le_of_sq (by norm_num) (by norm_num) (by norm_num)
  have h10 : Real.log (1236694126518066613409860367/1237940039285380274899124224 : ℝ) ≤ 2 * Real.log (1237316926080692726010016335/1237940039285380274899124224 : ℝ) :=
    log_le_of_sq (by norm_num) (by norm_num) (by norm_num)
  have h11 : Real.log (1237316926080692726010016335/1237940039285380274899124224 : ℝ) ≤ 2 * Real.log (1237628443467908794524676561/1237940039285380274899124224 : ℝ) :=
    log_le_of_sq (by norm_num) (by norm_num) (by norm_num)
  have h12 : Real.log (1237628443467908794524676561/1237940039285380274899124224 : ℝ) ≤ 2 * Real.log (1237784231571628583154655203/1237940039285380274899124224 : ℝ) :=
    log_le_of_sq (by norm_num) (by norm_num) (by norm_num)
  have h13 : Real.log (1237784231571628583154655203/1237940039285380274899124224 : ℝ) ≤ 2 * Real.log (1237862132977096171014052913/1237940039285380274899124224 : ℝ) :=
    log_le_of_sq (by norm_num) (by norm_num) (by norm_num)
  have h14 : Real.log (1237862132977096171014052913/1237940039285380274899124224 : ℝ) ≤ 2 * Real.log (1237901085518366873626014751/1237940039285380274899124224 : ℝ) :=
    log_le_of_sq (by norm_num) (by norm_num) (by norm_num)
  have h15 : Real.log (1237901085518366873626014751/1237940039285380274899124224 : ℝ) ≤ 2 * Real.log (618960281124326663130066039/618970019642690137449562112 : ℝ) :=
    log_le_of_sq (by norm_num) (by norm_num) (by norm_num)
  have hf : Real.log (618960281124326663130066039/618970019642690137449562112 : ℝ) ≤ (618960281124326663130066039/618970019642690137449562112 : ℝ) - 1 :=
    Real.log_le_sub_one_of_pos (by norm_num)
  have hn : (65536 : ℝ) * ((618960281124326663130066039/618970019642690137449562112 : ℝ) - 1) ≤ (-(594391989958149383/576460752303423488) : ℝ) := by norm_num
  linarith [h0, h1, h2, h3, h4, h5, h6, h7, h8, h9, h10, h11, h12, h13, h14, h15, hf, hn]

lemma le_log_d : (-(1188802683854130755/1152921504606846976) : ℝ) ≤ Real.log (55720239/156250000 : ℝ) := by
  have h0 : 2 * Real.log (92407260430921548955260891/154742504910672534362390528 : ℝ) ≤ Real.log (55720239/156250000 : ℝ) :=
    sq_log_le (by norm_num) (by norm_num)
  have h1 : 2 * Real.log (239159619927893961043328375/309485009821345068724781056 : ℝ) ≤ Real.log (92407260430921548955260891/154742504910672534362390528 : ℝ) :=
    sq_log_le (by norm_num) (by norm_num)
  have h2 : 2 * Real.log (272059400356343901779221261/309485009821345068724781056 : ℝ) ≤ Real.log (239159619927893961043328375/309485009821345068724781056 : ℝ) :=
    sq_log_le (by norm_num) (by norm_num)
  have h3 : 2 * Real.log (290169443931080280333361851/309485009821345068724781056 : ℝ) ≤ Real.log (272059400356343901779221261/309485009821345068724781056 : ℝ) :=
    sq_log_le (by norm_num) (by norm_num)
  have h4 : 2 * Real.log (1198686569240614243438506071/1237940039285380274899124224 : ℝ) ≤ Real.log (290169443931080280333361851/309485009821345068724781056 : ℝ) :=
    sq_log_le (by norm_num) (by norm_num)
  have h5 : 2 * Real.log (1218155203008460535448668405/1237940039285380274899124224 : ℝ) ≤ Real.log (1198686569240614243438506071/1237940039285380274899124224 : ℝ) :=
    sq_log_le (by norm_num) (by norm_num)
  have h6 : 2 * Real.log (614003888397293461978914621/618970019642690137449562112 : ℝ) ≤ Real.log (1218155203008460535448668405/1237940039285380274899124224 : ℝ) :=
    sq_log_le (by norm_num) (by norm_num)
  have h7 : 2 * Real.log (1232963906790398884526801535/1237940039285380274899124224 : ℝ) ≤ Real.log (614003888397293461978914621/618970019642690137449562112 : ℝ) :=
    sq_log_le (by norm_num) (by norm_num)
  have h8 : 2 * Real.log (1206493620788667188456803/1208925819614629174706176 : ℝ) ≤ Real.log (1232963906790398884526801535/1237940039285380274899124224 : ℝ) :=
    sq_log_le (by norm_num) (by norm_num)
  have h9 : 2 * Real.log (1236694126518066613409860365/1237940039285380274899124224 : ℝ) ≤ Real.log (1206493620788667188456803/1208925819614629174706176 : ℝ) :=
    sq_log_le (by norm_num) (by norm_num)
  have h10 : 2 * Real.log (1237316926080692726010016333/1237940039285380274899124224 : ℝ) ≤ Real.log (1236694126518066613409860365/1237940039285380274899124224 : ℝ) :=
    sq_log_le (by norm_num) (by norm_num)
  have h11 : 2 * Real.log (1237628443467908794524676559/1237940039285380274899124224 : ℝ) ≤ Real.log (1237316926080692726010016333/1237940039285380274899124224 : ℝ) :=
    sq_log_le (by norm_num) (by norm_num)
  have h12 : 2 * Real.log (1237784231571628583154655201/1237940039285380274899124224 : ℝ) ≤ Real.log (1237628443467908794524676559/1237940039285380274899124224 : ℝ) :=
    sq_log_le (by norm_num) (by norm_num)
  have h13 : 2 * Real.log (1237862132977096171014052911/1237940039285380274899124224 : ℝ) ≤ Real.log (1237784231571628583154655201/1237940039285380274899124224 : ℝ) :=
    sq_log_le (by norm_num) (by norm_num)
  have h14 : 2 * Real.log (1237901085518366873626014749/1237940039285380274899124224 : ℝ) ≤ Real.log (1237862132977096171014052911/1237940039285380274899124224 : ℝ) :=
    sq_log_le (by norm_num) (by norm_num)
  have h15 : 2 * Real.log (309480140562163331565033019/309485009821345068724781056 : ℝ) ≤ Real.log (1237901085518366873626014749/1237940039285380274899124224 : ℝ) :=
    sq_log_le (by norm_num) (by norm_num)
  have hf : 1 - ((309480140562163331565033019/309485009821345068724781056 : ℝ))⁻¹ ≤ Real.log (309480140562163331565033019/309485009821345068724781056 : ℝ) :=
    lin_le_log (by norm_num)
  have hn : (-(1188802683854130755/1152921504606846976) : ℝ) ≤ (65536 : ℝ) * (1 - ((309480140562163331565033019/309485009821345068724781056 : ℝ))⁻¹) := by norm_num
  linarith [h0, h1, h2, h3, h4, h5, h6, h7, h8, h9, h10, h11, h12, h13, h14, h15, hf, hn]

lemma exp_m1_lo : (538986623897/1099511627776 : ℝ) ^ 4 ≤ Real.exp (-(3135502075291/1099511627776) : ℝ) := by
  have hx : |(-(3135502075291/4398046511104) : ℝ)| ≤ 1 := by
    rw [abs_le]
    constructor <;> norm_num
  have hb := Real.exp_bound hx (show 0 < 12 by norm_num)
  have habs : |(-(3135502075291/4398046511104) : ℝ)| = (3135502075291/4398046511104 : ℝ) := by
    rw [abs_of_neg (by norm_num)]
    norm_num
  rw [habs] at hb
  norm_num [Nat.factorial] at hb
  have hsum : (137980575728611/281474976710656 : ℝ) ≤ (∑ m ∈ Finset.range 12, (-(3135502075291/4398046511104) : ℝ) ^ m / m.factorial) := by
    simp [Finset.sum_range_succ, Nat.factorial]
    norm_num
  have ht : (538986623897/1099511627776 : ℝ) ≤ Real.exp (-(3135502075291/4398046511104) : ℝ) := by
    rcases abs_le.mp hb with ⟨hb1, hb2⟩
    linarith
  have hp : (538986623897/1099511627776 : ℝ) ^ 4 ≤ Real.exp (-(3135502075291/4398046511104) : ℝ) ^ 4 :=
    pow_le_pow_left₀ (by norm_num) ht 4
  have hq : Real.exp (-(3135502075291/4398046511104) : ℝ) ^ 4 = Real.exp (-(3135502075291/1099511627776) : ℝ) := by
    rw [← Real.exp_nat_mul]
    norm_num
  linarith

lemma exp_m2_hi : Real.exp (-(3135394712499/1099511627776) : ℝ) ≤ (4311998252805/8796093022208 : ℝ) ^ 4 := by
  have hx : |(-(3135394712499/4398046511104) : ℝ)| ≤ 1 := by
    rw [abs_le]
    constructor <;> norm_num
  have hb := Real.exp_bound hx (show 0 < 12 by norm_num)
  have habs : |(-(3135394712499/4398046511104) : ℝ)| = (3135394712499/4398046511104 : ℝ) := by
    rw [abs_of_neg (by norm_num)]
    norm_num
  rw [habs] at hb
  norm_num [Nat.factorial] at hb
  have hsum : (∑ m ∈ Finset.range 12, (-(3135394712499/4398046511104) : ℝ) ^ m / m.factorial) ≤ (17247993009847/35184372088832 : ℝ) := by
    simp [Finset.sum_range_succ, Nat.factorial]
    norm_num
  have ht : Real.exp (-(3135394712499/4398046511104) : ℝ) ≤ (4311998252805/8796093022208 : ℝ) := by
    rcases abs_le.mp hb with ⟨hb1, hb2⟩
    linarith
  have hp : Real.exp (-(3135394712499/4398046511104) : ℝ) ^ 4 ≤ (4311998252805/8796093022208 : ℝ) ^ 4 :=
    pow_le_pow_left₀ (Real.exp_nonneg _) ht 4
  have hq : Real.exp (-(3135394712499/4398046511104) : ℝ) ^ 4 = Real.exp (-(3135394712499/1099511627776) : ℝ) := by
    rw [← Real.exp_nat_mul]
    norm_num
  linarith

lemma Ks_c6_bounds :
    (30955/10000000 : ℝ) < Ks 0.85 0.04 2.08 ∧ Ks 0.85 0.04 2.08 < (30965/10000000 : ℝ) := by
  have hLlo : (515613261872032265/576460752303423488 : ℝ) ≤ Real.log (611534530383883/249991600000000 : ℝ) := le_log_rho
  have hLhi : Real.log (611534530383883/249991600000000 : ℝ) ≤ (1031451762598230611/1152921504606846976 : ℝ) := log_rho_le
  have hDlo : (-(1188802683854130755/1152921504606846976) : ℝ) ≤ Real.log (55720239/156250000 : ℝ) := le_log_d
  have hDhi : Real.log (55720239/156250000 : ℝ) ≤ (-(594391989958149383/576460752303423488) : ℝ) := log_d_le
  have hElo : (190150933144364181498901/68755788978320511598592 : ℝ) ≤ 3 - Real.log (611534530383883/249991600000000 : ℝ) / 3.816713 := by
    have he : (190150933144364181498901/68755788978320511598592 : ℝ) = 3 - (1031451762598230611/1152921504606846976 : ℝ) / 3.816713 := by norm_num
    have hdiv : Real.log (611534530383883/249991600000000 : ℝ) / 3.816713 ≤ (1031451762598230611/1152921504606846976 : ℝ) / 3.816713 := by gcongr
    rw [he]
    linarith
  have hEhi : 3 - Real.log (611534530383883/249991600000000 : ℝ) / 3.816713 ≤ (95077226250730263257263/34377894489160255799296 : ℝ) := by
    have he : (95077226250730263257263/34377894489160255799296 : ℝ) = 3 - (515613261872032265/576460752303423488 : ℝ) / 3.816713 := by norm_num
    have hdiv : (515613261872032265/576460752303423488 : ℝ) / 3.816713 ≤ Real.log (611534530383883/249991600000000 : ℝ) / 3.816713 := by gcongr
    rw [he]
    linarith
  have hEpos : (0 : ℝ) ≤ 3 - Real.log (611534530383883/249991600000000 : ℝ) / 3.816713 := by
    have : (0:ℝ) ≤ (190150933144364181498901/68755788978320511598592 : ℝ) := by norm_num
    linarith
  have hM1 : (-(3135502075291/1099511627776) : ℝ) ≤ Real.log (55720239/156250000 : ℝ) * (3 - Real.log (611534530383883/249991600000000 : ℝ) / 3.816713) := by
    have s1 : (-(1188802683854130755/1152921504606846976) : ℝ) * (95077226250730263257263/34377894489160255799296 : ℝ) ≤ (-(1188802683854130755/1152921504606846976) : ℝ) * (3 - Real.log (611534530383883/249991600000000 : ℝ) / 3.816713) :=
      mul_le_mul_of_nonpos_left hEhi (by norm_num)
    have s2 : (-(1188802683854130755/1152921504606846976) : ℝ) * (3 - Real.log (611534530383883/249991600000000 : ℝ) / 3.816713) ≤
        Real.log (55720239/156250000 : ℝ) * (3 - Real.log (611534530383883/249991600000000 : ℝ) / 3.816713) :=
      mul_le_mul_of_nonneg_right hDlo hEpos
    have s0 : (-(3135502075291/1099511627776) : ℝ) ≤ (-(1188802683854130755/1152921504606846976) : ℝ) * (95077226250730263257263/34377894489160255799296 : ℝ) := by norm_num
    linarith
  have hM2 : Real.log (55720239/156250000 : ℝ) * (3 - Real.log (611534530383883/249991600000000 : ℝ) / 3.816713) ≤ (-(3135394712499/1099511627776) : ℝ) := by
    have s1 : Real.log (55720239/156250000 : ℝ) * (3 - Real.log (611534530383883/249991600000000 : ℝ) / 3.816713) ≤
        (-(594391989958149383/576460752303423488) : ℝ) * (3 - Real.log (611534530383883/249991600000000 : ℝ) / 3.816713) :=
      mul_le_mul_of_nonneg_right hDhi hEpos
    have s2 : (-(594391989958149383/576460752303423488) : ℝ) * (3 - Real.log (611534530383883/249991600000000 : ℝ) / 3.816713) ≤ (-(594391989958149383/576460752303423488) : ℝ) * (190150933144364181498901/68755788978320511598592 : ℝ) :=
      mul_le_mul_of_nonpos_left hElo (by norm_num)
    have s0 : (-(594391989958149383/576460752303423488) : ℝ) * (190150933144364181498901/68755788978320511598592 : ℝ) ≤ (-(3135394712499/1099511627776) : ℝ) := by norm_num
    linarith
  have hmono1 : Real.exp (-(3135502075291/1099511627776) : ℝ) ≤
      Real.exp (Real.log (55720239/156250000 : ℝ) * (3 - Real.log (611534530383883/249991600000000 : ℝ) / 3.816713)) :=
    Real.exp_le_exp.mpr hM1
  have hmono2 : Real.exp (Real.log (55720239/156250000 : ℝ) * (3 - Real.log (611534530383883/249991600000000 : ℝ) / 3.816713)) ≤
      Real.exp (-(3135394712499/1099511627776) : ℝ) :=
    Real.exp_le_exp.mpr hM2
  have he1 := exp_m1_lo
  have he2 := exp_m2_hi
  have hn1 : (30955/10000000 : ℝ) < 1930 * (538986623897/1099511627776 : ℝ) ^ 4 / 36000 := by norm_num
  have hn2 : 1930 * (4311998252805/8796093022208 : ℝ) ^ 4 / 36000 < (30965/10000000 : ℝ) := by norm_num
  rw [Ks_c6_eq]
  constructor <;> nlinarith [he1, he2, hmono1, hmono2, hn1, hn2]

lemma Ks_c6_round : round6R (Ks 0.85 0.04 2.08) = (3096/1000000 : ℝ) := by
  unfold round6R
  have hb := Ks_c6_bounds
  have h1 : ((3096 : ℤ) : ℝ) - 1/2 < Ks 0.85 0.04 2.08 * 1000000 := by
    push_cast
    linarith [hb.1]
  have h2 : Ks 0.85 0.04 2.08 * 1000000 < ((3096 : ℤ) : ℝ) + 1/2 := by
    push_cast
    linarith [hb.2]
  rw [rheR_eq_of_between _ 3096 h1 h2]
  norm_num

lemma round6_WP_c6 : round6 (theta1500c 0.85 0.04 2.08) = 39999/1000000 := by
  rw [theta1500c_c6, round6_eq_up (624979/15625000) 39998 (by norm_num) (by norm_num)]
  norm_num

lemma round6_FC_c6 : round6 (theta33 0.85 0.04 2.08) = 97846/1000000 := by
  rw [theta33_c6,
    round6_eq_up (611534530383883/6250000000000000) 97845 (by norm_num) (by norm_num)]
  norm_num

lemma round6_thS_c6 : round6 (thetaS 0.85 0.04 2.08) = 454455/1000000 := by
  rw [thetaS_c6,
    round6_eq_down (2840344090383883/6250000000000000) 454455 (by norm_num) (by norm_num)]
  norm_num

lemma resultsList_c6 :
    resultsList 0.85 0.04 2.08 =
      [("WP", (39999/1000000 : ℝ)), ("FC", (97846/1000000 : ℝ)),
       ("thetaS", (454455/1000000 : ℝ)), ("Ks", (3096/1000000 : ℝ))] := by
  unfold resultsList
  rw [Ks_c6_round]
  simp only [round6R_cast]
  rw [round6_WP_c6, round6_FC_c6, round6_thS_c6]
  norm_num

lemma min70_c6 : min (70 : ℚ) 2.08 = 2.08 := by norm_num

lemma Get_ret_c6 :
    (Get 0.85 0.04 2.08 false).1 = PyResult.ret (resultsList 0.85 0.04 2.08) := by
  have h := Get_ret 0.85 0.04 2.08 false
    (by rw [min70_c6]; norm_num [CheckArgs])
    (by rw [min70_c6, theta33_c6]; norm_num)
    (by rw [min70_c6, theta1500c_c6]; norm_num)
    (by rw [min70_c6, theta33_c6, theta1500c_c6]; norm_num)
    (by rw [min70_c6, thetaS_c6, theta33_c6]; norm_num)
  rw [min70_c6] at h
  rw [h]

/-- C6: `Get(0.85, 0.04, 2.08)` returns a result (not `None`) whose fields
are within the stated tolerances of the expected values: `WP` within
relative error `1e-4` of `0.0400`, `FC` within `1e-4` of `0.09785`,
`thetaS` within `1e-4` of `0.4545`, and `Ks` within `1e-3` of `0.003096`.
The returned values are exactly `0.039999`, `0.097846`, `0.454455`, and
`0.003096` (the last pinned by the certified interval bounds above). -/
theorem claim_C6 :
    (Get 0.85 0.04 2.08 false).1 =
      PyResult.ret [("WP", (39999/1000000 : ℝ)), ("FC", (97846/1000000 : ℝ)),
        ("thetaS", (454455/1000000 : ℝ)), ("Ks", (3096/1000000 : ℝ))] ∧
    |(39999/1000000 : ℝ) - 0.0400| ≤ 1e-4 * 0.0400 ∧
    |(97846/1000000 : ℝ) - 0.09785| ≤ 1e-4 * 0.09785 ∧
    |(454455/1000000 : ℝ) - 0.4545| ≤ 1e-4 * 0.4545 ∧
    |(3096/1000000 : ℝ) - 0.003096| ≤ 1e-3 * 0.003096 := by
  refine ⟨?_, ?_, ?_, ?_, ?_⟩
  · rw [Get_ret_c6, resultsList_c6]
  · rw [abs_le]
    constructor <;> norm_num
  · rw [abs_le]
    constructor <;> norm_num
  · rw [abs_le]
    constructor <;> norm_num
  · rw [abs_le]
    constructor <;> norm_num

end SWCharEst
